import Mathlib

/-!
Verification development for the bmtl-device on-device agent.

Shallow embedding of the device orchestration core:
* `CameraDaemon` — the windowed-interval capture scheduler
  (`update_schedule`, `_calculate_window`, `_align_to_interval`,
  `_advance_window`, `_normalize_schedule_state`,
  `check_and_execute_schedule` from `camera_daemon.py`);
* `UpdateManager` — the blue/green update state machine
  (`_execute_robust_update` from `device_worker.py`);
* `SharedConfig` — the atomic configuration-store write
  (`_atomic_write_json` from `shared_config.py`);
* `SettingsChange` — the settings-change handler
  (`handle_settings_change` from `device_worker.py`).

Instants are modelled as integer seconds (`Int`); a calendar day is
86400 seconds and `datetime.replace(hour, minute, second=0, microsecond=0)`
becomes "floor to the start of the day, then add minutes-of-day".
Integer division `/` on `Int` is euclidean division, which agrees with
Python's floor division for the positive divisors used here.
-/

namespace CameraDaemon

/-- Seconds in one day (`timedelta(days=1)`). -/
def daySecs : Int := 86400

/-- Raw value of a `start_time`/`end_time` field as found in a settings or
schedule dictionary: `absent` when the key is missing, `bad` when it is
present but unusable (None, empty, or not parseable by `strptime '%H:%M'`),
`valid t` when it parses to the minutes-of-day `t`.  A successful
`strptime '%H:%M'` parse always yields a value below 1440. -/
inductive TField where
  | absent
  | bad
  | valid (t : Fin 1440)
deriving DecidableEq

/-- Raw value of a `capture_interval` field: `absent` when the key is
missing, `bad` when present but not convertible by `int(...)`, `valid n`
when it converts to the integer `n`. -/
inductive IField where
  | absent
  | bad
  | valid (n : Int)
deriving DecidableEq

/-- Raw value of a `last_capture` field: `absent` when missing or falsy,
`bad` when `datetime.fromisoformat` rejects it, `valid t` otherwise. -/
inductive LField where
  | absent
  | bad
  | valid (t : Int)
deriving DecidableEq

/-- Minutes-of-day for the string `'00:00'`. -/
def t0000 : Fin 1440 := ⟨0, by decide⟩

/-- Minutes-of-day for the string `'23:59'`. -/
def t2359 : Fin 1440 := ⟨1439, by decide⟩

/-- Embedding of `_normalize_time_field(value, fallback)`: return the parsed
value, else the parsed fallback, else `'00:00'`.  (The source also logs a
warning when the fallback is used; logging is not modelled.) -/
def normalize_time_field (value fallback : TField) : Fin 1440 :=
  match value with
  | .valid t => t
  | _ =>
    match fallback with
    | .valid t => t
    | _ => t0000

/-- Embedding of `_normalize_interval(value, fallback)`: the first of
`[value, fallback, 0]` that is present and convertible is clamped to a
non-negative integer (`max(interval, 0)`, i.e. `Int.toNat`). -/
def normalize_interval (value fallback : IField) : Nat :=
  match value with
  | .valid n => n.toNat
  | _ =>
    match fallback with
    | .valid n => n.toNat
    | _ => 0

/-- Semantic value of a raw `last_capture` field: unusable values collapse
to `none` (the source resets unparseable timestamps to `None` and treats
falsy ones as absent). -/
def normalize_last : LField → Option Int
  | .valid t => some t
  | _ => none

/-- Schedule dictionary as read from disk (or handed to the scheduler),
before normalization.  `capture_interval` models the lookup
`schedule.get('capture_interval', schedule.get('interval_minutes'))`;
`enabled` is `none` when the `'enabled'` key is absent. -/
structure RawSchedule where
  enabled : Option Bool
  start_time : TField
  end_time : TField
  capture_interval : IField
  last_capture : LField
deriving DecidableEq

/-- Normalized schedule document as persisted to `camera_schedule.json`.
The source stores the constant `type = 'windowed_interval'` and the two
always-equal fields `capture_interval`/`interval_minutes`; the constant is
omitted and the duplicated field is stored once. -/
structure ScheduleDoc where
  enabled : Bool
  start_time : Fin 1440
  end_time : Fin 1440
  capture_interval : Nat
  last_capture : Option Int
  window_start : Option Int
  window_end : Option Int
  next_capture : Option Int
deriving DecidableEq

/-- Read a normalized document back as a raw dictionary (every field is
present and canonical), as happens when a persisted document is re-read. -/
def rawOfDoc (d : ScheduleDoc) : RawSchedule where
  enabled := some d.enabled
  start_time := .valid d.start_time
  end_time := .valid d.end_time
  capture_interval := .valid (d.capture_interval : Int)
  last_capture :=
    match d.last_capture with
    | some t => .valid t
    | none => .absent

/-- Start of the calendar day containing `t` (what
`reference.replace(hour=0, minute=0, second=0, microsecond=0)` denotes). -/
def day_start (t : Int) : Int := (t / 86400) * 86400

/-- Embedding of `_calculate_window(reference, start_str, end_str)`:
datetime bounds for the capture window closest to `reference`, plus the
inside-the-window flag. -/
def calculate_window (reference : Int) (start_str end_str : Fin 1440) :
    Int × Int × Bool :=
  let start_today := day_start reference + (start_str.val : Int) * 60
  let end_today := day_start reference + (end_str.val : Int) * 60
  if end_today > start_today then
    if reference < start_today then (start_today, end_today, false)
    else if reference ≤ end_today then (start_today, end_today, true)
    else (start_today + daySecs, end_today + daySecs, false)
  else
    if reference ≥ start_today then (start_today, end_today + daySecs, true)
    else if reference ≤ end_today then (start_today - daySecs, end_today, true)
    else (start_today, end_today + daySecs, false)

/-- Embedding of `_align_to_interval(base, reference, interval_td)`: the
first capture time `≥ reference` aligned to the interval grid anchored at
`base`.  `math.ceil(delta / interval)` on positive integers is
`(delta + interval - 1) / interval`. -/
def align_to_interval (base reference : Int) (interval_td : Int) : Int :=
  if interval_td ≤ 0 then base
  else if reference ≤ base then base
  else
    let delta := reference - base
    base + interval_td * ((delta + interval_td - 1) / interval_td)

/-- Embedding of `_advance_window(start_dt, end_dt)`: advance the window by
one day, preserving its duration (a non-positive duration is replaced by a
full day). -/
def advance_window (start_dt end_dt : Int) : Int × Int :=
  let window_length := if end_dt - start_dt ≤ 0 then daySecs else end_dt - start_dt
  (start_dt + daySecs, start_dt + daySecs + window_length)

/-- Embedding of `_normalize_schedule_state(schedule, now)`: the schedule
dictionary updated with the normalized fields, paired with the
capture-due flag.  (The source returns only the normalized fields and the
caller merges them with `dict.update`; the merged document is returned
directly here.) -/
def normalize_schedule_state (schedule : RawSchedule) (now : Int) :
    ScheduleDoc × Bool :=
  let start_time := normalize_time_field schedule.start_time (.valid t0000)
  let end_time := normalize_time_field schedule.end_time (.valid t2359)
  let interval := normalize_interval schedule.capture_interval (.valid 0)
  let enabled := (schedule.enabled.getD true) && decide (0 < interval)
  if enabled then
    let w := calculate_window now start_time end_time
    let ws := w.1
    let we := w.2.1
    let interval_td : Int := (interval : Int) * 60
    let last := normalize_last schedule.last_capture
    let candidate0 := max now ws
    let candidate :=
      match last with
      | some lc => max candidate0 (lc + interval_td)
      | none => candidate0
    let next0 := align_to_interval ws candidate interval_td
    if next0 > we then
      let aw := advance_window ws we
      ({ enabled := true, start_time := start_time, end_time := end_time,
         capture_interval := interval, last_capture := last,
         window_start := some aw.1, window_end := some aw.2,
         next_capture := some aw.1 }, false)
    else
      ({ enabled := true, start_time := start_time, end_time := end_time,
         capture_interval := interval, last_capture := last,
         window_start := some ws, window_end := some we,
         next_capture := some next0 },
       decide (ws ≤ next0) && decide (next0 ≤ we) && decide (now ≥ next0))
  else
    ({ enabled := false, start_time := start_time, end_time := end_time,
       capture_interval := interval,
       last_capture := normalize_last schedule.last_capture,
       window_start := none, window_end := none, next_capture := none },
     false)

/-- Schedule-settings dictionary handed to `update_schedule`:
`enabled_key = none` models the `'enabled'` key being absent, `some b` a
present key with truthiness `b`. -/
structure ScheduleSettings where
  start_time : TField
  end_time : TField
  capture_interval : IField
  enabled_key : Option Bool
deriving DecidableEq

/-- Truthiness of the settings dictionary (`elif schedule_settings:`): the
dictionary is empty exactly when no modelled key is present. -/
def ScheduleSettings.isEmpty (s : ScheduleSettings) : Bool :=
  decide (s.start_time = TField.absent) && decide (s.end_time = TField.absent)
    && decide (s.capture_interval = IField.absent) && decide (s.enabled_key = none)

/-- The `schedule_plan` dictionary built by `update_schedule` before
normalization: fallback chain new value → previous persisted value → hard
default, with `enabled` defaulting to `True` for a non-empty settings
dictionary and to the persisted value (default `False`) for an empty one. -/
def schedule_plan (settings : ScheduleSettings) (existing : RawSchedule) :
    ScheduleDoc :=
  let last := normalize_last existing.last_capture
  let start_fallback := normalize_time_field existing.start_time (.valid t0000)
  let end_fallback := normalize_time_field existing.end_time (.valid t2359)
  let start_time := normalize_time_field settings.start_time (.valid start_fallback)
  let end_time := normalize_time_field settings.end_time (.valid end_fallback)
  let existing_interval := normalize_interval existing.capture_interval (.valid 60)
  let interval :=
    normalize_interval settings.capture_interval (.valid (existing_interval : Int))
  let enabled_flag :=
    match settings.enabled_key with
    | some b => b
    | none => if settings.isEmpty then existing.enabled.getD false else true
  { enabled := enabled_flag && decide (0 < interval),
    start_time := start_time, end_time := end_time,
    capture_interval := interval, last_capture := last,
    window_start := none, window_end := none, next_capture := none }

/-- Embedding of `update_schedule(schedule_settings, current_time)` acting
on the persisted `existing` schedule: build the plan dictionary, then merge
in the output of `_normalize_schedule_state` and persist the result. -/
def update_schedule (settings : ScheduleSettings) (existing : RawSchedule)
    (now : Int) : ScheduleDoc :=
  (normalize_schedule_state (rawOfDoc (schedule_plan settings existing)) now).1

/-- Embedding of `check_and_execute_schedule(schedule, current_time)`: the
per-tick decision.  When a capture is due the capture executor runs with
`planned_time = now`, `last_capture` is set to that planned time (also on a
camera error), and the schedule is re-normalized at that time.  Returns the
resulting document and whether a capture fired. -/
def check_and_execute_schedule (schedule : RawSchedule) (now : Int) :
    ScheduleDoc × Bool :=
  let r := normalize_schedule_state schedule now
  if r.2 then
    let working : RawSchedule :=
      { rawOfDoc r.1 with last_capture := .valid now }
    ((normalize_schedule_state working now).1, true)
  else (r.1, false)

end CameraDaemon

namespace UpdateManager

/-- The two release slots under `/opt/bmtl-device`. -/
inductive Slot where
  | v1
  | v2
deriving DecidableEq

/-- Directory basename of a slot. -/
def Slot.name : Slot → String
  | .v1 => "v1"
  | .v2 => "v2"

/-- The other slot (the inactive one when this one is active). -/
def Slot.other : Slot → Slot
  | .v1 => .v2
  | .v2 => .v1

/-- Filesystem state seen by `_execute_robust_update`: whether `current` is
a symlink, the basename of its resolved target, and the contents of the two
slots (`none` = directory absent, `some c` = present with abstract content
identifier `c`). -/
structure UpdateFS where
  isLink : Bool
  linkTarget : String
  slotV1 : Option Nat
  slotV2 : Option Nat
deriving DecidableEq

/-- Content of a slot directory. -/
def UpdateFS.getSlot (fs : UpdateFS) : Slot → Option Nat
  | .v1 => fs.slotV1
  | .v2 => fs.slotV2

/-- Replace the content of a slot directory. -/
def UpdateFS.setSlot (fs : UpdateFS) (s : Slot) (c : Option Nat) : UpdateFS :=
  match s with
  | .v1 => { fs with slotV1 := c }
  | .v2 => { fs with slotV2 := c }

/-- Stage at which an update attempt raises. -/
inductive UpdateStage where
  | linkMissing
  | unknownTarget
  | cloneFail
  | venvFail
  | pipFail
  | compileFail
  | preSwitchCheckFail
  | postSwitchCheckFail
  | restartFail
deriving DecidableEq

/-- Python exception classes that matter to the handler. -/
inductive PyExc where
  | fileNotFound
  | valueError
  | calledProcess
  | runtimeError
deriving DecidableEq

/-- Exception class raised at each stage, as in the source: a missing link
raises `FileNotFoundError`, an unknown pointer target `ValueError`, failing
subprocesses `CalledProcessError` (all run with `check=True`), and the
compile/executable checks `RuntimeError`. -/
def UpdateStage.exceptionClass : UpdateStage → PyExc
  | .linkMissing => .fileNotFound
  | .unknownTarget => .valueError
  | .cloneFail => .calledProcess
  | .venvFail => .calledProcess
  | .pipFail => .calledProcess
  | .compileFail => .runtimeError
  | .preSwitchCheckFail => .runtimeError
  | .postSwitchCheckFail => .runtimeError
  | .restartFail => .calledProcess

/-- Exception classes caught by the handler clause
`except (FileNotFoundError, ValueError, subprocess.CalledProcessError,
RuntimeError)`: all of them, so the worker process keeps running. -/
def handlerCatches : PyExc → Bool
  | .fileNotFound => true
  | .valueError => true
  | .calledProcess => true
  | .runtimeError => true

/-- Environment of an update attempt: which external steps succeed, and the
abstract content fetched by `git clone`. -/
structure UpdateEnv where
  cloneOk : Bool
  venvOk : Bool
  pipOk : Bool
  compileOk : Bool
  newPythonOk : Bool
  postSwitchOk : Bool
  restartOk : Bool
  newContent : Nat
deriving DecidableEq

/-- Outcome of one `_execute_robust_update` run: the final filesystem
state, the stage that raised (`none` on success), and the `success` flags
of the published `sw-update` responses, in order. -/
structure UpdateResult where
  fs : UpdateFS
  outcome : Option UpdateStage
  responses : List Bool
deriving DecidableEq

/-- The `except` block of `_execute_robust_update`: remove the failed
inactive slot when it was determined (`'inactive_path' in locals()`), then
publish a structured failure response. -/
def cleanupFail (fs : UpdateFS) (inactive : Option Slot) (st : UpdateStage) :
    UpdateResult :=
  let fs' :=
    match inactive with
    | some s => fs.setSlot s none
    | none => fs
  ⟨fs', some st, [false]⟩

/-- Embedding of `_execute_robust_update`: determine the inactive slot from
the activation pointer, clone and verify into it, switch the pointer only
after verification, revert the pointer if the post-switch check fails, and
on any raise clean up the inactive slot and publish a failure response. -/
def execute_robust_update (fs : UpdateFS) (env : UpdateEnv) : UpdateResult :=
  if ¬ fs.isLink then
    cleanupFail fs none .linkMissing
  else if fs.linkTarget = "v1" ∨ fs.linkTarget = "v2" then
    let active : Slot := if fs.linkTarget = "v1" then .v1 else .v2
    let inactive := active.other
    let fs1 := fs.setSlot inactive none
    if ¬ env.cloneOk then cleanupFail fs1 (some inactive) .cloneFail
    else
      let fs2 := fs1.setSlot inactive (some env.newContent)
      if ¬ env.venvOk then cleanupFail fs2 (some inactive) .venvFail
      else if ¬ env.pipOk then cleanupFail fs2 (some inactive) .pipFail
      else if ¬ env.compileOk then cleanupFail fs2 (some inactive) .compileFail
      else if ¬ env.newPythonOk then cleanupFail fs2 (some inactive) .preSwitchCheckFail
      else
        let fs3 := { fs2 with linkTarget := inactive.name }
        if ¬ env.postSwitchOk then
          let fs4 := { fs3 with linkTarget := active.name }
          cleanupFail fs4 (some inactive) .postSwitchCheckFail
        else if ¬ env.restartOk then
          let r := cleanupFail fs3 (some inactive) .restartFail
          { r with responses := true :: r.responses }
        else
          ⟨fs3, none, [true]⟩
  else
    cleanupFail fs none .unknownTarget

end UpdateManager

namespace SharedConfig

/-- Filesystem state relevant to one document path: the fully-written
target file and the sibling temporary file (contents, `none` = absent). -/
structure StoreFS where
  target : Option String
  temp : Option String
deriving DecidableEq

/-- Point at which `_atomic_write_json` raises. -/
inductive WriteFailure where
  | duringWrite
  | duringFsync
  | duringRename
deriving DecidableEq

/-- Environment of one write attempt: where it fails (if at all), the
truncated content left in the temporary file when the dump itself fails,
and whether the best-effort cleanup `os.unlink` in the `except` block
itself fails (its exceptions are swallowed by `except: pass`). -/
structure WriteEnv where
  failure : Option WriteFailure
  truncatedContent : String
  unlinkFails : Bool
deriving DecidableEq

/-- Embedding of `_atomic_write_json(filepath, data)`: create a temporary
file in the same directory, dump and fsync the payload into it, then
atomically rename it over the target; on any raise, unlink the temporary
file (best effort) and re-raise.  Returns the resulting filesystem state
and whether the write succeeded. -/
def atomic_write_json (fs : StoreFS) (data : String) (env : WriteEnv) :
    StoreFS × Bool :=
  match env.failure with
  | none =>
    ({ target := some data, temp := none }, true)
  | some f =>
    let tempAfter : Option String :=
      match f with
      | .duringWrite => some env.truncatedContent
      | .duringFsync => some data
      | .duringRename => some data
    let cleaned : Option String := if env.unlinkFails then tempAfter else none
    ({ target := fs.target, temp := cleaned }, false)

end SharedConfig

namespace SettingsChange

/-- Incoming `settings_change` payload after `request_id` is popped: each
field is `some v` when the key is present in the request. -/
structure SettingsData where
  iso : Option String
  aperture : Option String
  shutter_speed : Option String
  image_quality : Option String
  focus_mode : Option String
  white_balance : Option String
  whitebalance : Option String
  start_time : Option String
  end_time : Option String
  capture_interval : Option String
  resolution : Option String
  quality : Option String
  format : Option String
deriving DecidableEq

/-- Stored `camera_config.json` document, keyed by the gphoto2 target keys
(after the alias map `shutter_speed → shutterspeed`,
`image_quality → imagequality`, `focus_mode → focusmode2`). -/
structure CameraConfigDoc where
  iso : Option String
  aperture : Option String
  shutterspeed : Option String
  imagequality : Option String
  focusmode2 : Option String
  whitebalance : Option String
deriving DecidableEq

/-- Stored `schedule_settings.json` document. -/
structure ScheduleSettingsDoc where
  start_time : Option String
  end_time : Option String
  capture_interval : Option String
deriving DecidableEq

/-- Stored `image_settings.json` document. -/
structure ImageSettingsDoc where
  image_size : Option String
  quality : Option String
  format : Option String
deriving DecidableEq

/-- A configuration-store write performed by the handler. -/
inductive WriteOp where
  | cameraConfig (d : CameraConfigDoc)
  | scheduleSettings (d : ScheduleSettingsDoc)
  | imageSettings (d : ImageSettingsDoc)
  | cameraSettings (d : SettingsData)
deriving DecidableEq

/-- The `camera_config_payload` dictionary: incoming gphoto fields renamed
through the alias map.  Both `white_balance` and `whitebalance` map to
`whitebalance`, the latter (checked second) overwriting the former. -/
def cameraConfigPayload (p : SettingsData) : CameraConfigDoc where
  iso := p.iso
  aperture := p.aperture
  shutterspeed := p.shutter_speed
  imagequality := p.image_quality
  focusmode2 := p.focus_mode
  whitebalance := p.whitebalance.orElse fun _ => p.white_balance

/-- Whether the payload dictionary has any gphoto key
(`if gphoto_settings:`), which coincides with `camera_config_payload`
being non-empty. -/
def CameraConfigDoc.nonempty (d : CameraConfigDoc) : Bool :=
  d.iso.isSome || d.aperture.isSome || d.shutterspeed.isSome
    || d.imagequality.isSome || d.focusmode2.isSome || d.whitebalance.isSome

/-- One field of the diff `{k: v for k, v in payload.items() if
existing.get(k) != v}`: the incoming value when it is present and differs
from the stored value. -/
def diffField (incoming stored : Option String) : Option String :=
  match incoming with
  | some v => if stored = some v then none else some v
  | none => none

/-- Merged field of `{**existing, **changed}`: the incoming value when
present, else the stored one. -/
def mergeField (incoming stored : Option String) : Option String :=
  incoming.orElse fun _ => stored

/-- Diff of the camera-config payload against the stored document. -/
def cameraConfigDiff (p : CameraConfigDoc) (stored : CameraConfigDoc) :
    CameraConfigDoc where
  iso := diffField p.iso stored.iso
  aperture := diffField p.aperture stored.aperture
  shutterspeed := diffField p.shutterspeed stored.shutterspeed
  imagequality := diffField p.imagequality stored.imagequality
  focusmode2 := diffField p.focusmode2 stored.focusmode2
  whitebalance := diffField p.whitebalance stored.whitebalance

/-- The persisted `new_config = dict(existing); new_config.update(diff)`. -/
def cameraConfigMerge (p : CameraConfigDoc) (stored : CameraConfigDoc) :
    CameraConfigDoc where
  iso := mergeField p.iso stored.iso
  aperture := mergeField p.aperture stored.aperture
  shutterspeed := mergeField p.shutterspeed stored.shutterspeed
  imagequality := mergeField p.imagequality stored.imagequality
  focusmode2 := mergeField p.focusmode2 stored.focusmode2
  whitebalance := mergeField p.whitebalance stored.whitebalance

/-- Incoming schedule fields of the payload. -/
def scheduleOf (p : SettingsData) : ScheduleSettingsDoc where
  start_time := p.start_time
  end_time := p.end_time
  capture_interval := p.capture_interval

/-- Whether any schedule key is present (`if schedule_settings:`). -/
def ScheduleSettingsDoc.nonempty (d : ScheduleSettingsDoc) : Bool :=
  d.start_time.isSome || d.end_time.isSome || d.capture_interval.isSome

/-- Diff of the incoming schedule fields against the stored document. -/
def scheduleDiff (p stored : ScheduleSettingsDoc) : ScheduleSettingsDoc where
  start_time := diffField p.start_time stored.start_time
  end_time := diffField p.end_time stored.end_time
  capture_interval := diffField p.capture_interval stored.capture_interval

/-- The persisted `{**existing_sched, **changed}`. -/
def scheduleMerge (p stored : ScheduleSettingsDoc) : ScheduleSettingsDoc where
  start_time := mergeField p.start_time stored.start_time
  end_time := mergeField p.end_time stored.end_time
  capture_interval := mergeField p.capture_interval stored.capture_interval

/-- Incoming image fields of the payload (`resolution` is stored under
`image_size`). -/
def imageOf (p : SettingsData) : ImageSettingsDoc where
  image_size := p.resolution
  quality := p.quality
  format := p.format

/-- Whether any image key is present (`if image_settings:`). -/
def ImageSettingsDoc.nonempty (d : ImageSettingsDoc) : Bool :=
  d.image_size.isSome || d.quality.isSome || d.format.isSome

/-- Diff of the incoming image fields against the stored document. -/
def imageDiff (p stored : ImageSettingsDoc) : ImageSettingsDoc where
  image_size := diffField p.image_size stored.image_size
  quality := diffField p.quality stored.quality
  format := diffField p.format stored.format

/-- The persisted `{**existing_img, **changed_img}`. -/
def imageMerge (p stored : ImageSettingsDoc) : ImageSettingsDoc where
  image_size := mergeField p.image_size stored.image_size
  quality := mergeField p.quality stored.quality
  format := mergeField p.format stored.format

/-- Embedding of `handle_settings_change(device_id, payload)` restricted to
its configuration-store effect: the ordered list of `write_config` calls it
performs, given the payload and the three stored documents it diffs
against.  The final `camera_settings.json` write is unconditional in the
source (line 348 of `device_worker.py`). -/
def handle_settings_change (p : SettingsData) (storedCfg : CameraConfigDoc)
    (storedSched : ScheduleSettingsDoc) (storedImg : ImageSettingsDoc) :
    List WriteOp :=
  let payload := cameraConfigPayload p
  let gphotoWrites :=
    if payload.nonempty then
      let diff := cameraConfigDiff payload storedCfg
      if diff.nonempty then [WriteOp.cameraConfig (cameraConfigMerge payload storedCfg)]
      else []
    else []
  let sched := scheduleOf p
  let schedWrites :=
    if sched.nonempty then
      let diff := scheduleDiff sched storedSched
      if diff.nonempty then [WriteOp.scheduleSettings (scheduleMerge sched storedSched)]
      else []
    else []
  let img := imageOf p
  let imgWrites :=
    if img.nonempty then
      let diff := imageDiff img storedImg
      if diff.nonempty then [WriteOp.imageSettings (imageMerge img storedImg)]
      else []
    else []
  gphotoWrites ++ schedWrites ++ imgWrites ++ [WriteOp.cameraSettings p]

/-- Every incoming value equals the value already stored in the
corresponding settings document. -/
def incomingMatchesStored (p : SettingsData) (storedCfg : CameraConfigDoc)
    (storedSched : ScheduleSettingsDoc) (storedImg : ImageSettingsDoc) : Bool :=
  let payload := cameraConfigPayload p
  (payload.iso.all fun v => storedCfg.iso == some v)
    && (payload.aperture.all fun v => storedCfg.aperture == some v)
    && (payload.shutterspeed.all fun v => storedCfg.shutterspeed == some v)
    && (payload.imagequality.all fun v => storedCfg.imagequality == some v)
    && (payload.focusmode2.all fun v => storedCfg.focusmode2 == some v)
    && (payload.whitebalance.all fun v => storedCfg.whitebalance == some v)
    && (p.start_time.all fun v => storedSched.start_time == some v)
    && (p.end_time.all fun v => storedSched.end_time == some v)
    && (p.capture_interval.all fun v => storedSched.capture_interval == some v)
    && (p.resolution.all fun v => storedImg.image_size == some v)
    && (p.quality.all fun v => storedImg.quality == some v)
    && (p.format.all fun v => storedImg.format == some v)

end SettingsChange

namespace SettingsChange

/-- Helper: when the incoming field matches the stored one, the diff drops it. -/
theorem diffField_none (incoming stored : Option String)
    (h : (incoming.all fun v => stored == some v) = true) :
    diffField incoming stored = none := by
  cases incoming with
  | none => rfl
  | some v =>
    simp only [Option.all_some, beq_iff_eq] at h
    simp [diffField, h]

end SettingsChange

namespace UpdateManager

/-- Helper: replacing a slot's content never touches the link. -/
@[simp] theorem setSlot_linkTarget (fs : UpdateFS) (s : Slot) (c : Option Nat) :
    (fs.setSlot s c).linkTarget = fs.linkTarget := by
  cases s <;> rfl

/-- Helper: replacing a slot's content never touches the link kind. -/
@[simp] theorem setSlot_isLink (fs : UpdateFS) (s : Slot) (c : Option Nat) :
    (fs.setSlot s c).isLink = fs.isLink := by
  cases s <;> rfl

/-- Helper: the failure cleanup never touches the link. -/
@[simp] theorem cleanupFail_linkTarget (fs : UpdateFS) (i : Option Slot)
    (st : UpdateStage) : (cleanupFail fs i st).fs.linkTarget = fs.linkTarget := by
  cases i <;> simp [cleanupFail]

/-- Helper: the failure cleanup never touches the link kind. -/
@[simp] theorem cleanupFail_isLink (fs : UpdateFS) (i : Option Slot)
    (st : UpdateStage) : (cleanupFail fs i st).fs.isLink = fs.isLink := by
  cases i <;> simp [cleanupFail]

/-- Helper: the failure cleanup reports the raising stage. -/
@[simp] theorem cleanupFail_outcome (fs : UpdateFS) (i : Option Slot)
    (st : UpdateStage) : (cleanupFail fs i st).outcome = some st := by
  cases i <;> rfl

end UpdateManager

set_option maxHeartbeats 1000000 in
/-- C1: a software-update attempt that fails at any stage other than the
final service restart (missing or unrecognized pointer, clone, venv
creation, dependency install, compile verification, pre-switch executable
check, or the post-switch executable check) leaves the activation pointer
resolving to the same slot as before the attempt: the pointer is changed
only after verification succeeds, and a failed post-switch check relinks
it back to the previous slot before the failure is reported. -/
theorem update_failure_preserves_pointer (fs : UpdateManager.UpdateFS)
    (env : UpdateManager.UpdateEnv) (st : UpdateManager.UpdateStage)
    (hout : (UpdateManager.execute_robust_update fs env).outcome = some st)
    (hst : st ≠ UpdateManager.UpdateStage.restartFail) :
    (UpdateManager.execute_robust_update fs env).fs.linkTarget = fs.linkTarget ∧
      (UpdateManager.execute_robust_update fs env).fs.isLink = fs.isLink := by
  unfold UpdateManager.execute_robust_update at hout ⊢
  split_ifs at hout ⊢ with h1 h2 h3 <;>
    first
    | (exfalso; exact Option.noConfusion hout)
    | (exfalso
       simp only [UpdateManager.cleanupFail_outcome] at hout
       exact hst (Option.some_inj.mp hout).symm)
    | (refine ⟨?_, ?_⟩
       simp
       simp)
    | (refine ⟨?_, ?_⟩
       simp only [UpdateManager.cleanupFail_linkTarget, h3, UpdateManager.Slot.name]
       simp)
    | (refine ⟨?_, ?_⟩
       simp only [UpdateManager.cleanupFail_linkTarget, h2.resolve_left h3,
         UpdateManager.Slot.name]
       simp)

/-- Witness for C1: a concrete attempt whose dependency install fails. -/
theorem update_failure_preserves_pointer_witness :
    (UpdateManager.execute_robust_update
        ⟨true, "v1", some 7, none⟩ ⟨true, true, false, true, true, true, true, 42⟩).outcome =
      some UpdateManager.UpdateStage.pipFail ∧
    (UpdateManager.execute_robust_update
        ⟨true, "v1", some 7, none⟩ ⟨true, true, false, true, true, true, true, 42⟩).fs.linkTarget = "v1" :=
  ⟨by decide,
   (update_failure_preserves_pointer ⟨true, "v1", some 7, none⟩
      ⟨true, true, false, true, true, true, true, 42⟩ UpdateManager.UpdateStage.pipFail
      (by decide) (by decide)).1⟩

/-- C2: when the activation pointer resolves to a directory named neither
`v1` nor `v2`, the update attempt fails before any clone or slot deletion
occurs — the whole filesystem state (both slots and the pointer) is
unchanged — a single structured failure response is published, and the
`ValueError` raised is caught by the handler, so the worker keeps running. -/
theorem unknown_pointer_target_fails_early (fs : UpdateManager.UpdateFS)
    (env : UpdateManager.UpdateEnv) (hlink : fs.isLink = true)
    (h1 : fs.linkTarget ≠ "v1") (h2 : fs.linkTarget ≠ "v2") :
    UpdateManager.execute_robust_update fs env =
        ⟨fs, some UpdateManager.UpdateStage.unknownTarget, [false]⟩ ∧
      UpdateManager.handlerCatches
        (UpdateManager.UpdateStage.exceptionClass
          UpdateManager.UpdateStage.unknownTarget) = true := by
  refine ⟨?_, rfl⟩
  unfold UpdateManager.execute_robust_update
  rw [if_neg (by simp [hlink]), if_neg (by simp [h1, h2])]
  rfl

/-- Witness for C2: a pointer aimed at `v3`. -/
theorem unknown_pointer_target_fails_early_witness :
    UpdateManager.execute_robust_update ⟨true, "v3", some 1, some 2⟩
        ⟨true, true, true, true, true, true, true, 9⟩ =
      ⟨⟨true, "v3", some 1, some 2⟩, some UpdateManager.UpdateStage.unknownTarget,
        [false]⟩ :=
  (unknown_pointer_target_fails_early ⟨true, "v3", some 1, some 2⟩
      ⟨true, true, true, true, true, true, true, 9⟩ rfl (by decide) (by decide)).1

/-- C8 counterexample: a write that fails during the atomic rename leaves
the target untouched but does **not** leave the temporary file orphaned —
the `except` block of `_atomic_write_json` unlinks it before re-raising. -/
theorem atomic_write_no_orphan_counterexample :
    (SharedConfig.atomic_write_json ⟨some "old", none⟩ "new"
        ⟨some SharedConfig.WriteFailure.duringRename, "", false⟩).2 = false ∧
      ¬ ((SharedConfig.atomic_write_json ⟨some "old", none⟩ "new"
          ⟨some SharedConfig.WriteFailure.duringRename, "", false⟩).1.temp.isSome = true) := by
  decide

/-- C8 amended: a configuration-store write that fails part-way (while
writing, flushing, or renaming the temporary file) leaves the target file
untouched — no reader can observe a partially written document — and the
temporary file is removed by the best-effort cleanup rather than left
orphaned (it remains only when the cleanup unlink itself fails). -/
theorem atomic_write_failure_leaves_target_untouched (fs : SharedConfig.StoreFS)
    (data : String) (env : SharedConfig.WriteEnv) (h : env.failure.isSome = true) :
    (SharedConfig.atomic_write_json fs data env).1.target = fs.target ∧
      (env.unlinkFails = false →
        (SharedConfig.atomic_write_json fs data env).1.temp = none) ∧
      (SharedConfig.atomic_write_json fs data env).2 = false := by
  unfold SharedConfig.atomic_write_json
  cases henv : env.failure with
  | none => rw [henv] at h; simp at h
  | some f =>
    refine ⟨rfl, fun hu => ?_, rfl⟩
    simp [hu]

/-- Witness for C8 amended: a concrete failed rename with working cleanup. -/
theorem atomic_write_failure_leaves_target_untouched_witness :
    (SharedConfig.atomic_write_json ⟨some "old", some "junk"⟩ "new"
        ⟨some SharedConfig.WriteFailure.duringFsync, "tr", false⟩).1.target = some "old" ∧
      (SharedConfig.atomic_write_json ⟨some "old", some "junk"⟩ "new"
          ⟨some SharedConfig.WriteFailure.duringFsync, "tr", false⟩).1.temp = none := by
  have h := atomic_write_failure_leaves_target_untouched ⟨some "old", some "junk"⟩ "new"
    ⟨some SharedConfig.WriteFailure.duringFsync, "tr", false⟩ (by decide)
  exact ⟨h.1, h.2.1 rfl⟩

/-- C9 counterexample: a `settings_change` whose every incoming value
equals the stored one still performs a configuration-store write — the
handler unconditionally rewrites `camera_settings.json` (line 348 of
`device_worker.py`), so the list of writes is not empty. -/
theorem settings_change_always_writes_counterexample :
    SettingsChange.incomingMatchesStored
        ⟨some "100", none, none, none, none, none, none, none, none, none, none, none, none⟩
        ⟨some "100", none, none, none, none, none⟩ ⟨none, none, none⟩ ⟨none, none, none⟩ = true ∧
      ¬ (SettingsChange.handle_settings_change
          ⟨some "100", none, none, none, none, none, none, none, none, none, none, none, none⟩
          ⟨some "100", none, none, none, none, none⟩ ⟨none, none, none⟩ ⟨none, none, none⟩ = []) := by
  decide

/-- C9 amended: when every incoming value of a `settings_change` equals the
stored value, the handler performs no write to the three diff-gated
documents (`camera_config.json`, `schedule_settings.json`,
`image_settings.json`); the only store write is the unconditional
`camera_settings.json` snapshot of the request. -/
theorem settings_change_diff_before_write (p : SettingsChange.SettingsData)
    (storedCfg : SettingsChange.CameraConfigDoc)
    (storedSched : SettingsChange.ScheduleSettingsDoc)
    (storedImg : SettingsChange.ImageSettingsDoc)
    (h : SettingsChange.incomingMatchesStored p storedCfg storedSched storedImg = true) :
    SettingsChange.handle_settings_change p storedCfg storedSched storedImg =
      [SettingsChange.WriteOp.cameraSettings p] := by
  simp only [SettingsChange.incomingMatchesStored, Bool.and_eq_true] at h
  obtain ⟨⟨⟨⟨⟨⟨⟨⟨⟨⟨⟨h1, h2⟩, h3⟩, h4⟩, h5⟩, h6⟩, h7⟩, h8⟩, h9⟩, h10⟩, h11⟩, h12⟩ := h
  have hc : (SettingsChange.cameraConfigDiff (SettingsChange.cameraConfigPayload p)
      storedCfg).nonempty = false := by
    simp [SettingsChange.cameraConfigDiff, SettingsChange.CameraConfigDoc.nonempty,
      SettingsChange.diffField_none _ _ h1, SettingsChange.diffField_none _ _ h2,
      SettingsChange.diffField_none _ _ h3, SettingsChange.diffField_none _ _ h4,
      SettingsChange.diffField_none _ _ h5, SettingsChange.diffField_none _ _ h6]
  have hs : (SettingsChange.scheduleDiff (SettingsChange.scheduleOf p)
      storedSched).nonempty = false := by
    simp [SettingsChange.scheduleDiff, SettingsChange.ScheduleSettingsDoc.nonempty,
      SettingsChange.scheduleOf,
      SettingsChange.diffField_none _ _ h7, SettingsChange.diffField_none _ _ h8,
      SettingsChange.diffField_none _ _ h9]
  have hi : (SettingsChange.imageDiff (SettingsChange.imageOf p)
      storedImg).nonempty = false := by
    simp [SettingsChange.imageDiff, SettingsChange.ImageSettingsDoc.nonempty,
      SettingsChange.imageOf,
      SettingsChange.diffField_none _ _ h10, SettingsChange.diffField_none _ _ h11,
      SettingsChange.diffField_none _ _ h12]
  simp only [SettingsChange.handle_settings_change]
  rw [hc, hs, hi]
  simp only [Bool.false_eq_true, if_false]
  split_ifs <;> rfl

/-- Witness for C9 amended: a matching request writes only the snapshot. -/
theorem settings_change_diff_before_write_witness :
    SettingsChange.handle_settings_change
        ⟨none, none, some "1/60", none, none, none, none, some "08:00", none, none, none, none, none⟩
        ⟨none, none, some "1/60", none, none, none⟩ ⟨some "08:00", none, none⟩ ⟨none, none, none⟩ =
      [SettingsChange.WriteOp.cameraSettings
        ⟨none, none, some "1/60", none, none, none, none, some "08:00", none, none, none, none, none⟩] :=
  settings_change_diff_before_write _ _ _ _ (by decide)


namespace CameraDaemon

/-- Helper: the day start is no later than the instant itself. -/
theorem day_start_le (t : Int) : day_start t ≤ t := by
  unfold day_start
  omega

/-- Helper: the instant lies strictly before the next day start. -/
theorem lt_day_start_add (t : Int) : t < day_start t + 86400 := by
  unfold day_start
  omega

/-- Helper: interval alignment never moves before the grid anchor. -/
theorem align_to_interval_ge_base (base reference : Int) (k : Int) :
    base ≤ align_to_interval base reference k := by
  unfold align_to_interval
  split_ifs with h1 h2
  · exact le_refl base
  · exact le_refl base
  · have hk : 0 < k := by omega
    have hd : (1 : Int) ≤ reference - base := by omega
    have hq : 0 ≤ (reference - base + k - 1) / k :=
      Int.ediv_nonneg (by omega) (by omega)
    have hkq : 0 ≤ k * ((reference - base + k - 1) / k) := mul_nonneg (by omega) hq
    show base ≤ base + k * ((reference - base + k - 1) / k)
    linarith

/-- Helper: interval alignment snaps forward, never backward, past the
reference (for a positive interval). -/
theorem align_to_interval_ge_ref (base reference : Int) (k : Int)
    (hk : 0 < k) : reference ≤ align_to_interval base reference k := by
  unfold align_to_interval
  split_ifs with h1 h2
  · omega
  · omega
  · have hd : (1 : Int) ≤ reference - base := by omega
    have heq := Int.ediv_add_emod (reference - base + k - 1) k
    have hm1 : 0 ≤ (reference - base + k - 1) % k := Int.emod_nonneg _ (by omega)
    have hm2 : (reference - base + k - 1) % k < k := Int.emod_lt_of_pos _ hk
    show reference ≤ base + k * ((reference - base + k - 1) / k)
    linarith

/-- Helper: the aligned time is the anchor plus a whole number of
intervals. -/
theorem align_to_interval_shape (base reference : Int) (k : Int) :
    ∃ m : Nat, align_to_interval base reference k = base + (m : Int) * k := by
  unfold align_to_interval
  split_ifs with h1 h2
  · exact ⟨0, by ring⟩
  · exact ⟨0, by ring⟩
  · have hk : 0 < k := by omega
    have hd : (1 : Int) ≤ reference - base := by omega
    have hq : 0 ≤ (reference - base + k - 1) / k :=
      Int.ediv_nonneg (by omega) (by omega)
    refine ⟨((reference - base + k - 1) / k).toNat, ?_⟩
    show base + k * ((reference - base + k - 1) / k) =
      base + ((((reference - base + k - 1) / k).toNat : Int)) * k
    rw [Int.toNat_of_nonneg hq]
    ring

/-- Helper: every window returned by `_calculate_window` has a strictly
positive duration, and its start lies less than one day after `now`. -/
theorem calculate_window_spec (reference : Int) (s e : Fin 1440) :
    (calculate_window reference s e).1 < (calculate_window reference s e).2.1 ∧
      reference < (calculate_window reference s e).1 + 86400 := by
  have hs := s.isLt
  have he := e.isLt
  have h1 := day_start_le reference
  have h2 := lt_day_start_add reference
  simp only [calculate_window, daySecs]
  split_ifs <;> constructor <;> simp <;> omega

end CameraDaemon

namespace CameraDaemon

/-- Helper: the normalized interval of a document is independent of `now`
and of the window computation. -/
@[simp] theorem normalize_state_capture_interval (s : RawSchedule) (now : Int) :
    (normalize_schedule_state s now).1.capture_interval =
      normalize_interval s.capture_interval (.valid 0) := by
  simp only [normalize_schedule_state]
  split_ifs <;> rfl

/-- Helper: the normalized enabled flag is the stored truthiness (default
`True`) conjoined with positivity of the normalized interval. -/
@[simp] theorem normalize_state_enabled (s : RawSchedule) (now : Int) :
    (normalize_schedule_state s now).1.enabled =
      (s.enabled.getD true &&
        decide (0 < normalize_interval s.capture_interval (.valid 0))) := by
  simp only [normalize_schedule_state]
  split_ifs with h h2 <;> simp_all

/-- Helper: normalization passes the semantic `last_capture` through. -/
@[simp] theorem normalize_state_last (s : RawSchedule) (now : Int) :
    (normalize_schedule_state s now).1.last_capture = normalize_last s.last_capture := by
  simp only [normalize_schedule_state]
  split_ifs <;> rfl

/-- Helper: the normalized start time field. -/
@[simp] theorem normalize_state_start (s : RawSchedule) (now : Int) :
    (normalize_schedule_state s now).1.start_time =
      normalize_time_field s.start_time (.valid t0000) := by
  simp only [normalize_schedule_state]
  split_ifs <;> rfl

/-- Helper: the normalized end time field. -/
@[simp] theorem normalize_state_end (s : RawSchedule) (now : Int) :
    (normalize_schedule_state s now).1.end_time =
      normalize_time_field s.end_time (.valid t2359) := by
  simp only [normalize_schedule_state]
  split_ifs <;> rfl

/-- Helper: parsing a canonical interval back gives the interval. -/
@[simp] theorem normalize_interval_valid (n : Int) (fb : IField) :
    normalize_interval (.valid n) fb = n.toNat := rfl

/-- Helper: parsing a canonical time field back gives the time. -/
@[simp] theorem normalize_time_field_valid (t : Fin 1440) (fb : TField) :
    normalize_time_field (.valid t) fb = t := rfl

end CameraDaemon

/-- C10: a non-empty schedule-settings dictionary without an `enabled` key
implicitly enables the schedule: the persisted document has
`enabled = true` exactly when its normalized interval is positive,
whatever the previously persisted document said; only an empty settings
dictionary falls back to the previous document's `enabled` value (still
conjoined with interval positivity). -/
theorem nonempty_settings_implicitly_enable (s : CameraDaemon.ScheduleSettings)
    (ex : CameraDaemon.RawSchedule) (now : Int)
    (hkey : s.enabled_key = none) :
    (s.isEmpty = false →
      ((CameraDaemon.update_schedule s ex now).enabled = true ↔
        0 < (CameraDaemon.update_schedule s ex now).capture_interval)) ∧
    (s.isEmpty = true →
      (CameraDaemon.update_schedule s ex now).enabled =
        (ex.enabled.getD false &&
          decide (0 < (CameraDaemon.update_schedule s ex now).capture_interval))) := by
  simp only [CameraDaemon.update_schedule, CameraDaemon.rawOfDoc, hkey,
    CameraDaemon.normalize_state_capture_interval,
    CameraDaemon.normalize_state_enabled, CameraDaemon.normalize_interval_valid]
  constructor
  · intro hempty
    simp [CameraDaemon.schedule_plan, hkey, hempty, Bool.and_self, decide_eq_true_iff]
  · intro hempty
    simp [CameraDaemon.schedule_plan, hkey, hempty, Bool.and_assoc, Bool.and_self]

/-- Witness for C10: a disabled document plus settings that only set the
interval, which re-enables the schedule. -/
theorem nonempty_settings_implicitly_enable_witness :
    ((CameraDaemon.update_schedule
        ⟨.absent, .absent, .valid 30, none⟩
        ⟨some false, .valid ⟨480, by decide⟩, .valid ⟨540, by decide⟩, .valid 30, .absent⟩
        1728000000).enabled = true ↔
      0 < (CameraDaemon.update_schedule
        ⟨.absent, .absent, .valid 30, none⟩
        ⟨some false, .valid ⟨480, by decide⟩, .valid ⟨540, by decide⟩, .valid 30, .absent⟩
        1728000000).capture_interval) ∧
    (CameraDaemon.update_schedule
        ⟨.absent, .absent, .valid 30, none⟩
        ⟨some false, .valid ⟨480, by decide⟩, .valid ⟨540, by decide⟩, .valid 30, .absent⟩
        1728000000).enabled = true :=
  ⟨(nonempty_settings_implicitly_enable _ _ _ rfl).1 (by decide), by decide⟩

namespace CameraDaemon

/-- Helper: the advanced window starts one day later. -/
@[simp] theorem advance_window_start (a b : Int) :
    (advance_window a b).1 = a + 86400 := rfl

/-- Helper: the advanced window has a strictly positive duration. -/
theorem advance_window_pos (a b : Int) :
    (advance_window a b).1 < (advance_window a b).2 := by
  simp only [advance_window, daySecs]
  split_ifs <;> omega

/-- Helper: a positive-duration window keeps its duration when advanced. -/
theorem advance_window_duration (a b : Int) (h : a < b) :
    (advance_window a b).2 - (advance_window a b).1 = b - a := by
  simp only [advance_window, daySecs]
  split_ifs <;> omega

end CameraDaemon

/-- C7: every schedule document produced by the scheduler — by
`update_schedule` (plan) or by the per-tick `_normalize_schedule_state` /
`check_and_execute_schedule` — satisfies the data-model invariant: when
`next_capture` is present, the window bounds are present,
`window_start ≤ next_capture ≤ window_end`, and
`window_end > window_start`. -/
theorem schedule_doc_invariant (s ex : CameraDaemon.RawSchedule)
    (settings : CameraDaemon.ScheduleSettings) (now nc : Int) :
    ((CameraDaemon.normalize_schedule_state s now).1.next_capture = some nc →
      ∃ ws we, (CameraDaemon.normalize_schedule_state s now).1.window_start = some ws ∧
        (CameraDaemon.normalize_schedule_state s now).1.window_end = some we ∧
        ws ≤ nc ∧ nc ≤ we ∧ ws < we) ∧
    ((CameraDaemon.update_schedule settings ex now).next_capture = some nc →
      ∃ ws we, (CameraDaemon.update_schedule settings ex now).window_start = some ws ∧
        (CameraDaemon.update_schedule settings ex now).window_end = some we ∧
        ws ≤ nc ∧ nc ≤ we ∧ ws < we) ∧
    ((CameraDaemon.check_and_execute_schedule s now).1.next_capture = some nc →
      ∃ ws we, (CameraDaemon.check_and_execute_schedule s now).1.window_start = some ws ∧
        (CameraDaemon.check_and_execute_schedule s now).1.window_end = some we ∧
        ws ≤ nc ∧ nc ≤ we ∧ ws < we) := by
  have core : ∀ (r : CameraDaemon.RawSchedule) (t : Int),
      (CameraDaemon.normalize_schedule_state r t).1.next_capture = some nc →
      ∃ ws we, (CameraDaemon.normalize_schedule_state r t).1.window_start = some ws ∧
        (CameraDaemon.normalize_schedule_state r t).1.window_end = some we ∧
        ws ≤ nc ∧ nc ≤ we ∧ ws < we := by
    intro r t h
    simp only [CameraDaemon.normalize_schedule_state] at h ⊢
    split_ifs at h ⊢ with h1 h2
    · -- window exhausted: the advanced window starts at the new next_capture
      rw [Option.some_inj] at h
      subst h
      exact ⟨_, _, rfl, rfl, le_refl _, le_of_lt (CameraDaemon.advance_window_pos _ _),
        CameraDaemon.advance_window_pos _ _⟩
    · -- inside the window: the aligned candidate is boxed by the bounds
      rw [Option.some_inj] at h
      subst h
      refine ⟨_, _, rfl, rfl, CameraDaemon.align_to_interval_ge_base _ _ _, by omega,
        (CameraDaemon.calculate_window_spec t _ _).1⟩
  refine ⟨core s now, ?_, ?_⟩
  · intro h
    exact core _ now h
  · intro h
    simp only [CameraDaemon.check_and_execute_schedule] at h ⊢
    split_ifs at h ⊢
    · exact core _ now h
    · exact core s now h

/-- Witness for C7: the invariant evaluated on a concrete enabled
schedule. -/
theorem schedule_doc_invariant_witness :
    ∃ ws we, (CameraDaemon.normalize_schedule_state
        ⟨some true, .valid ⟨480, by decide⟩, .valid ⟨540, by decide⟩, .valid 30, .absent⟩
        1728028800).1.window_start = some ws ∧
      (CameraDaemon.normalize_schedule_state
        ⟨some true, .valid ⟨480, by decide⟩, .valid ⟨540, by decide⟩, .valid 30, .absent⟩
        1728028800).1.window_end = some we ∧
      ws ≤ 1728028800 ∧ (1728028800 : Int) ≤ we ∧ ws < we :=
  (schedule_doc_invariant
      ⟨some true, .valid ⟨480, by decide⟩, .valid ⟨540, by decide⟩, .valid 30, .absent⟩
      ⟨some true, .valid ⟨480, by decide⟩, .valid ⟨540, by decide⟩, .valid 30, .absent⟩
      ⟨.absent, .absent, .absent, none⟩ 1728028800 1728028800).1 (by decide)

namespace CameraDaemon

/-- Helper: `rawOfDoc` projection for `enabled`. -/
@[simp] theorem rawOfDoc_enabled (d : ScheduleDoc) :
    (rawOfDoc d).enabled = some d.enabled := rfl

/-- Helper: `rawOfDoc` projection for `start_time`. -/
@[simp] theorem rawOfDoc_start (d : ScheduleDoc) :
    (rawOfDoc d).start_time = .valid d.start_time := rfl

/-- Helper: `rawOfDoc` projection for `end_time`. -/
@[simp] theorem rawOfDoc_end (d : ScheduleDoc) :
    (rawOfDoc d).end_time = .valid d.end_time := rfl

/-- Helper: `rawOfDoc` projection for `capture_interval`. -/
@[simp] theorem rawOfDoc_interval (d : ScheduleDoc) :
    (rawOfDoc d).capture_interval = .valid (d.capture_interval : Int) := rfl

/-- Helper: the semantic `last_capture` survives the document round trip. -/
@[simp] theorem normalize_last_rawOfDoc (d : ScheduleDoc) :
    normalize_last (rawOfDoc d).last_capture = d.last_capture := by
  simp only [rawOfDoc]
  cases d.last_capture <;> rfl

/-- Helper: `_normalize_schedule_state` depends only on the normalized
values of its input fields, so two dictionaries normalizing to the same
values produce identical outputs. -/
theorem normalize_schedule_state_congr (r1 r2 : RawSchedule) (t : Int)
    (hst : normalize_time_field r1.start_time (.valid t0000) =
      normalize_time_field r2.start_time (.valid t0000))
    (het : normalize_time_field r1.end_time (.valid t2359) =
      normalize_time_field r2.end_time (.valid t2359))
    (hint : normalize_interval r1.capture_interval (.valid 0) =
      normalize_interval r2.capture_interval (.valid 0))
    (hen : (r1.enabled.getD true &&
        decide (0 < normalize_interval r1.capture_interval (.valid 0))) =
      (r2.enabled.getD true &&
        decide (0 < normalize_interval r2.capture_interval (.valid 0))))
    (hlast : normalize_last r1.last_capture = normalize_last r2.last_capture) :
    normalize_schedule_state r1 t = normalize_schedule_state r2 t := by
  rw [hint] at hen
  simp only [normalize_schedule_state, hint, hst, het, hlast, hen]

/-- Helper: re-normalizing a persisted normalized document (at any tick
time) is the same as normalizing the original dictionary. -/
theorem normalize_schedule_state_idem (r : RawSchedule) (t u : Int) :
    normalize_schedule_state (rawOfDoc (normalize_schedule_state r t).1) u =
      normalize_schedule_state r u := by
  apply normalize_schedule_state_congr <;>
    simp [Bool.and_assoc, Bool.and_self]

end CameraDaemon

namespace CameraDaemon

/-- Helper: normalizing a time field against its own normalized value is a
fixed point. -/
theorem normalize_time_field_fix (v f : TField) :
    normalize_time_field v (.valid (normalize_time_field v f)) =
      normalize_time_field v f := by
  cases v <;> rfl

/-- Helper: normalizing an interval against its own normalized value is a
fixed point. -/
theorem normalize_interval_fix (v : IField) (x : Int) :
    normalize_interval v (.valid ((normalize_interval v (.valid x) : Nat) : Int)) =
      normalize_interval v (.valid x) := by
  cases v <;> simp [normalize_interval] <;> omega

/-- Helper: rebuilding the plan from the persisted output of
`update_schedule` with the same settings yields the same plan. -/
theorem schedule_plan_fix (s : ScheduleSettings) (ex : RawSchedule) (now : Int) :
    schedule_plan s (rawOfDoc (update_schedule s ex now)) = schedule_plan s ex := by
  simp only [update_schedule, schedule_plan, ScheduleDoc.mk.injEq,
    rawOfDoc_enabled, rawOfDoc_start, rawOfDoc_end, rawOfDoc_interval,
    normalize_state_start, normalize_state_end, normalize_state_capture_interval,
    normalize_state_enabled, normalize_state_last, normalize_last_rawOfDoc,
    normalize_time_field_valid, normalize_interval_valid, Int.toNat_natCast,
    Option.getD_some, normalize_time_field_fix, normalize_interval_fix,
    and_true, true_and]
  cases hk : s.enabled_key <;> cases he : s.isEmpty <;>
    simp [hk, he, Bool.and_assoc, Bool.and_self]

end CameraDaemon

/-- C6: calling `update_schedule` (plan) twice with identical settings and
the same `now`, the second call starting from the first call's persisted
output, yields an identical normalized schedule document — normalization
is a fixed point, with no drift in times, interval, enabled flag, window
bounds, `last_capture`, or `next_capture`. -/
theorem update_schedule_idempotent (s : CameraDaemon.ScheduleSettings)
    (ex : CameraDaemon.RawSchedule) (now : Int) :
    CameraDaemon.update_schedule s
        (CameraDaemon.rawOfDoc (CameraDaemon.update_schedule s ex now)) now =
      CameraDaemon.update_schedule s ex now := by
  rw [CameraDaemon.update_schedule, CameraDaemon.schedule_plan_fix]
  rfl

namespace CameraDaemon

/-- Helper: aligning a reference at or before the anchor returns the
anchor. -/
theorem align_to_interval_of_le (base reference k : Int) (h : reference ≤ base) :
    align_to_interval base reference k = base := by
  unfold align_to_interval
  split_ifs <;> rfl

/-- Helper: for a schedule with no recorded `last_capture`, the per-tick
decision is not-due strictly before the computed `window_start` and due
exactly at it. -/
theorem normalize_due_at_start (en : Option Bool) (st et : Fin 1440)
    (k now ws : Int)
    (hws : (normalize_schedule_state ⟨en, .valid st, .valid et, .valid k, .absent⟩
        now).1.window_start = some ws) :
    (now < ws →
      (normalize_schedule_state ⟨en, .valid st, .valid et, .valid k, .absent⟩ now).2 = false) ∧
    (now = ws →
      (normalize_schedule_state ⟨en, .valid st, .valid et, .valid k, .absent⟩ now).2 = true) := by
  have hspec := calculate_window_spec now st et
  simp only [normalize_schedule_state, normalize_time_field_valid,
    normalize_interval_valid, normalize_last] at hws ⊢
  split_ifs at hws ⊢ with h1 h2
  · -- window already exhausted: `window_start` is one day ahead of `now`
    simp only [advance_window_start, Option.some_inj] at hws
    exact ⟨fun _ => rfl, fun he => by omega⟩
  · -- inside the window: `next_capture` is the aligned candidate
    simp only [Option.some_inj] at hws
    subst hws
    constructor
    · intro hlt
      have hal : align_to_interval (calculate_window now st et).1
          (now ⊔ (calculate_window now st et).1) ((k.toNat : Int) * 60) =
          (calculate_window now st et).1 := by
        rw [max_eq_right (le_of_lt hlt)]
        exact align_to_interval_of_le _ _ _ (le_refl _)
      simp only [hal, Bool.and_eq_false_iff, decide_eq_false_iff_not]
      omega
    · intro he
      have hal : align_to_interval (calculate_window now st et).1
          (now ⊔ (calculate_window now st et).1) ((k.toNat : Int) * 60) =
          (calculate_window now st et).1 := by
        rw [max_eq_right (le_of_eq he)]
        exact align_to_interval_of_le _ _ _ (le_refl _)
      rw [hal] at h2
      simp only [hal, Bool.and_eq_true, decide_eq_true_iff]
      omega

end CameraDaemon

/-- C3: for a schedule built by `update_schedule` (plan) from valid
settings with `start_time < end_time` and `interval > 0`, and a null
`last_capture`, the per-tick due decision on the persisted document is
false for every `now` strictly before the plan's `window_start` and true
when `now` equals `window_start`. -/
theorem plan_due_at_window_start (s : CameraDaemon.ScheduleSettings)
    (ex : CameraDaemon.RawSchedule) (st et : Fin 1440) (n : Int) (now ws : Int)
    (h1 : s.start_time = .valid st) (h2 : s.end_time = .valid et)
    (h3 : (st : Nat) < (et : Nat)) (h4 : s.capture_interval = .valid n)
    (h5 : 0 < n) (h6 : CameraDaemon.normalize_last ex.last_capture = none)
    (hws : (CameraDaemon.update_schedule s ex now).window_start = some ws) :
    (now < ws →
      (CameraDaemon.normalize_schedule_state
        (CameraDaemon.rawOfDoc (CameraDaemon.update_schedule s ex now)) now).2 = false) ∧
    (now = ws →
      (CameraDaemon.normalize_schedule_state
        (CameraDaemon.rawOfDoc (CameraDaemon.update_schedule s ex now)) now).2 = true) := by
  have hlast : (CameraDaemon.update_schedule s ex now).last_capture = none := by
    simp [CameraDaemon.update_schedule, CameraDaemon.schedule_plan, h6]
  have hraw : CameraDaemon.rawOfDoc (CameraDaemon.update_schedule s ex now) =
      ⟨some (CameraDaemon.update_schedule s ex now).enabled,
        .valid (CameraDaemon.update_schedule s ex now).start_time,
        .valid (CameraDaemon.update_schedule s ex now).end_time,
        .valid ((CameraDaemon.update_schedule s ex now).capture_interval : Int),
        .absent⟩ := by
    simp [CameraDaemon.rawOfDoc, hlast]
  have hidem := CameraDaemon.normalize_schedule_state_idem
    (CameraDaemon.rawOfDoc (CameraDaemon.schedule_plan s ex)) now now
  have hws' : (CameraDaemon.normalize_schedule_state
      (CameraDaemon.rawOfDoc (CameraDaemon.update_schedule s ex now)) now).1.window_start =
      some ws := by
    simp only [CameraDaemon.update_schedule] at hws ⊢
    rw [hidem]
    exact hws
  rw [hraw] at hws'
  have hcore := CameraDaemon.normalize_due_at_start
    (some (CameraDaemon.update_schedule s ex now).enabled)
    (CameraDaemon.update_schedule s ex now).start_time
    (CameraDaemon.update_schedule s ex now).end_time
    ((CameraDaemon.update_schedule s ex now).capture_interval : Int) now ws hws'
  rw [hraw]
  exact hcore

/-- Witness for C3: the 08:00–09:00 window at 30-minute intervals is due
exactly at 08:00. -/
theorem plan_due_at_window_start_witness :
    (CameraDaemon.normalize_schedule_state
      (CameraDaemon.rawOfDoc (CameraDaemon.update_schedule
        ⟨.valid ⟨480, by decide⟩, .valid ⟨540, by decide⟩, .valid 30, none⟩
        ⟨none, .absent, .absent, .absent, .absent⟩ 1728028800))
      1728028800).2 = true :=
  (plan_due_at_window_start
      ⟨.valid ⟨480, by decide⟩, .valid ⟨540, by decide⟩, .valid 30, none⟩
      ⟨none, .absent, .absent, .absent, .absent⟩ ⟨480, by decide⟩ ⟨540, by decide⟩
      30 1728028800 1728028800 rfl rfl (by decide) rfl (by decide) rfl
      (by decide)).2 rfl

/-- C4: inside the window, an interval-aligned candidate equal to
`window_end` is not rejected — the capture is still reported due at the
inclusive boundary once `now` reaches it; a candidate strictly past
`window_end` advances the window by exactly one day preserving its
duration, resets `next_capture` to the new `window_start`, and reports
not-due. -/
theorem window_end_inclusive_and_rollover (r : CameraDaemon.RawSchedule)
    (now ws we cand nc : Int)
    (hen : (r.enabled.getD true &&
      decide (0 < CameraDaemon.normalize_interval r.capture_interval (.valid 0))) = true)
    (hw1 : (CameraDaemon.calculate_window now
      (CameraDaemon.normalize_time_field r.start_time (.valid CameraDaemon.t0000))
      (CameraDaemon.normalize_time_field r.end_time (.valid CameraDaemon.t2359))).1 = ws)
    (hw2 : (CameraDaemon.calculate_window now
      (CameraDaemon.normalize_time_field r.start_time (.valid CameraDaemon.t0000))
      (CameraDaemon.normalize_time_field r.end_time (.valid CameraDaemon.t2359))).2.1 = we)
    (hcand : cand = (match CameraDaemon.normalize_last r.last_capture with
      | some lc => max (max now ws)
          (lc + (CameraDaemon.normalize_interval r.capture_interval (.valid 0) : Int) * 60)
      | none => max now ws))
    (hnc : nc = CameraDaemon.align_to_interval ws cand
      ((CameraDaemon.normalize_interval r.capture_interval (.valid 0) : Int) * 60)) :
    (nc = we → now ≥ nc → (CameraDaemon.normalize_schedule_state r now).2 = true) ∧
    (nc > we →
      (CameraDaemon.normalize_schedule_state r now).1.window_start = some (ws + 86400) ∧
      (CameraDaemon.normalize_schedule_state r now).1.window_end =
        some (ws + 86400 + (we - ws)) ∧
      (CameraDaemon.normalize_schedule_state r now).1.next_capture = some (ws + 86400) ∧
      (CameraDaemon.normalize_schedule_state r now).2 = false) := by
  have hspec := CameraDaemon.calculate_window_spec now
    (CameraDaemon.normalize_time_field r.start_time (.valid CameraDaemon.t0000))
    (CameraDaemon.normalize_time_field r.end_time (.valid CameraDaemon.t2359))
  rw [hw1, hw2] at hspec
  have hge := CameraDaemon.align_to_interval_ge_base ws cand
    ((CameraDaemon.normalize_interval r.capture_interval (.valid 0) : Int) * 60)
  rw [← hnc] at hge
  simp only [CameraDaemon.normalize_schedule_state, hen, hw1, hw2, ← hcand, ← hnc,
    if_true]
  constructor
  · intro hnceq hge2
    rw [if_neg (by omega)]
    simp only [Bool.and_eq_true, decide_eq_true_iff]
    omega
  · intro hgt
    rw [if_pos hgt]
    have hadv : (CameraDaemon.advance_window ws we).2 = ws + 86400 + (we - ws) := by
      have hd := CameraDaemon.advance_window_duration ws we hspec.1
      have hs := CameraDaemon.advance_window_start ws we
      omega
    refine ⟨by simp, ?_, by simp, rfl⟩
    simp only [CameraDaemon.advance_window_start]
    rw [hadv]

/-- Witness for C4: with `last_capture = 08:30` in the 08:00–09:00 window
at 30-minute intervals, the aligned candidate is exactly `window_end`
(09:00) and the captures is reported due at 09:00. -/
theorem window_end_inclusive_and_rollover_witness :
    (CameraDaemon.normalize_schedule_state
      ⟨some true, .valid ⟨480, by decide⟩, .valid ⟨540, by decide⟩, .valid 30,
        .valid 1728030600⟩ 1728032400).2 = true :=
  (window_end_inclusive_and_rollover
      ⟨some true, .valid ⟨480, by decide⟩, .valid ⟨540, by decide⟩, .valid 30,
        .valid 1728030600⟩
      1728032400 1728028800 1728032400 1728032400 1728032400
      (by decide) (by decide) (by decide) (by decide) (by decide)).1 rfl (by decide)

namespace CameraDaemon

/-- Helper: a due tick implies the schedule was enabled with a positive
interval. -/
theorem due_implies_enabled (r : RawSchedule) (now : Int)
    (h : (normalize_schedule_state r now).2 = true) :
    (r.enabled.getD true &&
      decide (0 < normalize_interval r.capture_interval (.valid 0))) = true := by
  simp only [normalize_schedule_state] at h
  split_ifs at h with h1 h2 <;> first | exact h1 | simp at h

/-- Helper: re-normalizing with `last_capture = now` yields a next capture
strictly after `now` that is a whole number of intervals past the (possibly
advanced) `window_start`. -/
theorem normalize_next_after_capture (en : Option Bool) (st et : Fin 1440)
    (k now : Int) (hen : en.getD true = true) (hk : 0 < k) :
    ∃ nc wsv,
      (normalize_schedule_state ⟨en, .valid st, .valid et, .valid k, .valid now⟩
        now).1.next_capture = some nc ∧
      (normalize_schedule_state ⟨en, .valid st, .valid et, .valid k, .valid now⟩
        now).1.window_start = some wsv ∧
      now < nc ∧ ∃ m : Nat, nc = wsv + (m : Int) * ((k.toNat : Int) * 60) := by
  have hspec := calculate_window_spec now st et
  have hktd : (0 : Int) < (k.toNat : Int) * 60 := by omega
  simp only [normalize_schedule_state, normalize_time_field_valid,
    normalize_interval_valid, normalize_last, hen, decide_eq_true_eq, true_and]
  split_ifs with h1 h2
  · -- the day's captures are exhausted: next is the advanced window start
    refine ⟨_, _, rfl, rfl, ?_, 0, by ring⟩
    simp only [advance_window_start]
    omega
  · -- next is the aligned candidate, at least one interval past `now`
    refine ⟨_, _, rfl, rfl, ?_, ?_⟩
    · have hcand := align_to_interval_ge_ref (calculate_window now st et).1
        (max (max now (calculate_window now st et).1) (now + (k.toNat : Int) * 60))
        ((k.toNat : Int) * 60) hktd
      have hmax : now + (k.toNat : Int) * 60 ≤
          max (max now (calculate_window now st et).1) (now + (k.toNat : Int) * 60) :=
        le_max_right _ _
      omega
    · exact align_to_interval_shape _ _ _
  · exact absurd h1 (by simp [hen]; omega)

end CameraDaemon

/-- C5: after a due capture at `now` (the planned time, recorded as
`last_capture`), the recomputed `next_capture` is strictly greater than
that `last_capture` and is an exact multiple of `interval` minutes offset
from the document's `window_start`. -/
theorem next_capture_monotone (r : CameraDaemon.RawSchedule) (now : Int)
    (hdue : (CameraDaemon.normalize_schedule_state r now).2 = true) :
    (CameraDaemon.check_and_execute_schedule r now).1.last_capture = some now ∧
    ∃ nc ws,
      (CameraDaemon.check_and_execute_schedule r now).1.next_capture = some nc ∧
      (CameraDaemon.check_and_execute_schedule r now).1.window_start = some ws ∧
      now < nc ∧
      ∃ m : Nat, nc = ws + (m : Int) *
        (((CameraDaemon.check_and_execute_schedule r now).1.capture_interval : Int) * 60) := by
  have hen := CameraDaemon.due_implies_enabled r now hdue
  have henv : (CameraDaemon.normalize_schedule_state r now).1.enabled = true := by
    rw [CameraDaemon.normalize_state_enabled]
    exact hen
  have hpos : 0 < (CameraDaemon.normalize_schedule_state r now).1.capture_interval := by
    rw [CameraDaemon.normalize_state_capture_interval]
    simp only [Bool.and_eq_true, decide_eq_true_eq] at hen
    exact hen.2
  simp only [CameraDaemon.check_and_execute_schedule, hdue, if_true]
  simp only [CameraDaemon.rawOfDoc]
  have hcore := CameraDaemon.normalize_next_after_capture
    (some (CameraDaemon.normalize_schedule_state r now).1.enabled)
    (CameraDaemon.normalize_schedule_state r now).1.start_time
    (CameraDaemon.normalize_schedule_state r now).1.end_time
    ((CameraDaemon.normalize_schedule_state r now).1.capture_interval : Int) now
    (by simpa using henv) (by omega)
  refine ⟨by simp [CameraDaemon.normalize_last], ?_⟩
  obtain ⟨nc, wsv, hnc, hws, hlt, m, hm⟩ := hcore
  exact ⟨nc, wsv, hnc, hws, hlt, m, by simpa using hm⟩

/-- Witness for C5: the first capture of the 08:00–09:00/30-minute window
fires at 08:00 and reschedules strictly later on the interval grid. -/
theorem next_capture_monotone_witness :
    (CameraDaemon.check_and_execute_schedule
      ⟨some true, .valid ⟨480, by decide⟩, .valid ⟨540, by decide⟩, .valid 30, .absent⟩
      1728028800).1.last_capture = some 1728028800 ∧
    ∃ nc ws,
      (CameraDaemon.check_and_execute_schedule
        ⟨some true, .valid ⟨480, by decide⟩, .valid ⟨540, by decide⟩, .valid 30, .absent⟩
        1728028800).1.next_capture = some nc ∧
      (CameraDaemon.check_and_execute_schedule
        ⟨some true, .valid ⟨480, by decide⟩, .valid ⟨540, by decide⟩, .valid 30, .absent⟩
        1728028800).1.window_start = some ws ∧
      (1728028800 : Int) < nc ∧
      ∃ m : Nat, nc = ws + (m : Int) *
        (((CameraDaemon.check_and_execute_schedule
          ⟨some true, .valid ⟨480, by decide⟩, .valid ⟨540, by decide⟩, .valid 30, .absent⟩
          1728028800).1.capture_interval : Int) * 60) :=
  next_capture_monotone
    ⟨some true, .valid ⟨480, by decide⟩, .valid ⟨540, by decide⟩, .valid 30, .absent⟩
    1728028800 (by decide)
